import Mathlib

/-!
Verification development for the RAG agent pipeline implemented in
`app/graph/agent_graph.py` (with its entry point wired up in `app/api/main.py`).

The pipeline is a four-node state machine (input → retrieval → generation →
output) threading an `AgentState` record, plus a pure confidence-calibration
function `compute_confidence_from_scores`.

Modelling conventions:
* Python floats are modelled as exact rationals `ℚ` (the algorithms involve
  only field operations and comparisons).
* The two external service interactions (embedding + vector query in the
  retrieval node, chat completion in the generation node) are modelled by an
  explicit `Except String _` argument describing the outcome of the call:
  `Except.ok` carries the value the services returned, `Except.error` carries
  the message of the exception the call raised.  The nodes themselves are
  total functions of that outcome, mirroring the `try/except` structure.
* Python's `sorted(… , reverse=True)` is a stable descending sort; it is
  modelled by `List.insertionSort (fun a b => b ≤ a)`, which Mathlib notes is
  stable as well.
* Python's `str.strip()` is modelled by `pyStrip`, dropping ASCII whitespace
  from both ends.
* Python's `list(set(xs))` (order unspecified, uniqueness guaranteed) is
  modelled by `List.dedup`.
* A raised `ValueError` (the input node's validation failure) is modelled by
  the `Except.error` branch of the node's result.
-/

namespace AgentGraph

/-- A retrieved chunk, as built by `retrieval_node` from a Pinecone match
(fields `text`, `source`, `section`, `score`, `chunk_id`).  The Python
`section` key is spelled `sectionName` because `section` is a Lean keyword. -/
structure Chunk where
  text : String
  source : String
  sectionName : String
  score : ℚ
  chunk_id : String
deriving Repr, DecidableEq

/-- The `final_response` dictionary assembled by `output_node`
(`answer`, `sources`, `confidence`). -/
structure AnswerPayload where
  answer : String
  sources : List String
  confidence : ℚ
deriving Repr, DecidableEq

/-- One match returned by the Pinecone query: `match.metadata` keys may be
missing (hence `Option`), `match.score`, `match.id`. -/
structure PineconeMatch where
  metadata_text : Option String
  metadata_sources : Option String
  metadata_section : Option String
  score : ℚ
  id : String
deriving Repr, DecidableEq

/-- The `AgentState` TypedDict.  The `error` key is not declared in the
TypedDict but is added by the failure branches; it is modelled as an `Option`
that starts out `none`. -/
structure AgentState where
  question : String
  validated_question : Option String
  relevant_chunks : List Chunk
  generated_response : Option String
  confidence : Option ℚ
  final_response : Option AnswerPayload
  status : String
  error : Option String
deriving Repr, DecidableEq

/-- ASCII whitespace stripped by Python's `str.strip()`:
space, tab, newline, carriage return, vertical tab, form feed. -/
def isPySpace (c : Char) : Bool :=
  c = ' ' || c = '\t' || c = '\n' || c = '\r' || c = Char.ofNat 11 || c = Char.ofNat 12

/-- Python's `str.strip()`: drop whitespace from both ends. -/
def pyStrip (s : String) : String :=
  String.mk (((s.data.dropWhile isPySpace).reverse.dropWhile isPySpace).reverse)

/-- `compute_confidence_from_scores` (agent_graph.py lines 37–70): keep the
scores `≥ score_threshold`, take the top 3 sorted descending, apply weights
`[0.6, 0.3, 0.1]` truncated to the available count, average normalised by the
sum of the weights used, rescale linearly between the two anchors, and clamp
to `[0, 1]`. -/
def compute_confidence_from_scores (similarity_scores : List ℚ)
    (expected_min_similarity : ℚ) (expected_max_similarity : ℚ)
    (score_threshold : ℚ) : ℚ :=
  if similarity_scores = [] then 0.0
  else
    let filtered_scores := similarity_scores.filter (fun s => score_threshold ≤ s)
    if filtered_scores = [] then 0.0
    else
      let top_scores := (filtered_scores.insertionSort (fun a b => b ≤ a)).take 3
      let weights := ([0.6, 0.3, 0.1] : List ℚ).take top_scores.length
      let weighted_avg := (List.zipWith (fun w s => w * s) weights top_scores).sum / weights.sum
      let confidence := (weighted_avg - expected_min_similarity) /
        (expected_max_similarity - expected_min_similarity)
      max 0.0 (min 1.0 confidence)

/-- The calibrator at the default/production parameters
(`expected_min=0.20`, `expected_max=0.70`, `score_threshold=0.20`). -/
def calibrate (scores : List ℚ) : ℚ :=
  compute_confidence_from_scores scores 0.20 0.70 0.20

/-- The `top_scores` intermediate of `compute_confidence_from_scores`
(lines 57–62): filter by threshold, sort descending, take 3. -/
def top_scores_of (scores : List ℚ) (score_threshold : ℚ) : List ℚ :=
  ((scores.filter (fun s => score_threshold ≤ s)).insertionSort (fun a b => b ≤ a)).take 3

/-- The `weighted_avg` intermediate of `compute_confidence_from_scores`
(lines 64–66): weights `[0.6, 0.3, 0.1]` truncated to the available count,
normalised by the sum of the weights actually used. -/
def weighted_avg_of (scores : List ℚ) (score_threshold : ℚ) : ℚ :=
  let top_scores := top_scores_of scores score_threshold
  let weights := ([0.6, 0.3, 0.1] : List ℚ).take top_scores.length
  (List.zipWith (fun w s => w * s) weights top_scores).sum / weights.sum

/-- `input_node` (lines 78–97): raise `ValueError` when the question is empty
or its stripped form is shorter than 3 characters; otherwise record the
stripped question and advance the status. -/
def input_node (state : AgentState) : Except String AgentState :=
  let question := state.question
  if question = "" ∨ (pyStrip question).length < 3 then
    Except.error "Question must be at least 3 characters long"
  else
    let cleaned_question := pyStrip question
    Except.ok { state with
      validated_question := some cleaned_question,
      status := "input_validated" }

/-- The per-match chunk construction of `retrieval_node` (lines 144–152):
missing metadata defaults to `""` for text and `"unknown"` for source and
section. -/
def matchToChunk (m : PineconeMatch) : Chunk :=
  { text := m.metadata_text.getD ""
    source := m.metadata_sources.getD "unknown"
    sectionName := m.metadata_section.getD "unknown"
    score := m.score
    chunk_id := m.id }

/-- `retrieval_node` (lines 105–180).  `service` is the combined outcome of
the embedding call and the Pinecone query (the whole `try` block): on success
the matches are mapped to chunks and the status advances; on any exception the
node degrades to an empty chunk list, records the error and continues. -/
def retrieval_node (service : Except String (List PineconeMatch))
    (state : AgentState) : AgentState :=
  match service with
  | Except.ok found_matches =>
      let relevant_chunks := found_matches.map matchToChunk
      { state with
        relevant_chunks := relevant_chunks,
        status := "retrieval_completed" }
  | Except.error e =>
      { state with
        relevant_chunks := [],
        status := "retrieval_failed",
        error := some e }

/-- The generic no-information response of `generation_node` (line 197). -/
def noInfoResponse (question : String) : String :=
  "No encontré información específica sobre '" ++ question ++
    "' en mi base de conocimiento."

/-- The fallback apology of `generation_node`'s `except` branch (line 278). -/
def fallbackResponse (question : String) : String :=
  "Lo siento, tuve un problema generando la respuesta para: '" ++ question ++
    "'. Por favor, intenta de nuevo."

instance : DecidableRel (fun a b : Chunk => b.score ≤ a.score) :=
  fun a b => inferInstanceAs (Decidable (b.score ≤ a.score))

instance : DecidableRel (fun a b : ℚ => b ≤ a) :=
  fun a b => inferInstanceAs (Decidable (b ≤ a))

instance : IsTotal ℚ (fun a b : ℚ => b ≤ a) :=
  ⟨fun x y => le_total y x⟩

instance : IsTrans ℚ (fun a b : ℚ => b ≤ a) :=
  ⟨fun _ _ _ h1 h2 => le_trans h2 h1⟩

instance : IsAntisymm ℚ (fun a b : ℚ => b ≤ a) :=
  ⟨fun _ _ h1 h2 => le_antisymm h2 h1⟩

/-- `generation_node` (lines 188–287).  `service` is the outcome of the
OpenAI chat-completion call: `Except.ok` carries
`response.choices[0].message.content`.  If there are no chunks the node
short-circuits with the generic response and confidence 0.0 without consulting
the service; otherwise it sorts the chunks by score descending, calibrates the
confidence from the sorted scores, and either records the (stripped) completion
or, on an exception, the fallback apology with confidence 0.0. -/
def generation_node (service : Except String String) (state : AgentState) :
    AgentState :=
  let question := state.validated_question.getD ""
  let chunks := state.relevant_chunks
  if chunks = [] then
    { state with
      generated_response := some (noInfoResponse question),
      status := "generation_completed",
      confidence := some 0.0 }
  else
    let sorted_chunks := chunks.insertionSort (fun a b => b.score ≤ a.score)
    let similarity_scores := sorted_chunks.map (fun c => c.score)
    let calibrated_confidence :=
      compute_confidence_from_scores similarity_scores 0.20 0.70 0.20
    match service with
    | Except.ok content =>
        { state with
          generated_response := some (pyStrip content),
          confidence := some calibrated_confidence,
          status := "generation_completed" }
    | Except.error e =>
        { state with
          generated_response := some (fallbackResponse question),
          confidence := some 0.0,
          status := "generation_failed",
          error := some e }

/-- `output_node` (lines 294–327): deduplicate the chunk sources
(`list(set(...))`, modelled by `List.dedup`), assemble the final payload from
the generated response, the deduplicated sources and the state's confidence,
and mark the run completed. -/
def output_node (state : AgentState) : AgentState :=
  let response := state.generated_response.getD ""
  let chunks := state.relevant_chunks
  let confidence := state.confidence.getD 0.0
  let unique_sources := (chunks.map (fun c => c.source)).dedup
  let formatted_response : AnswerPayload :=
    { answer := response, sources := unique_sources, confidence := confidence }
  { state with
    final_response := some formatted_response,
    status := "completed" }

/-- The initial state prepared by the callers of the graph
(`main` in agent_graph.py, `/ask` in main.py): only `question` and
`status = "started"` are populated. -/
def initialState (question : String) : AgentState :=
  { question := question
    validated_question := none
    relevant_chunks := []
    generated_response := none
    confidence := none
    final_response := none
    status := "started"
    error := none }

/-- The compiled graph of `create_agent_graph` (lines 335–357): the strict
linear flow input → retrieval → generation → output.  Only `input_node` can
raise; the other nodes are total. -/
def run_agent_graph (retrieval_service : Except String (List PineconeMatch))
    (generation_service : Except String String) (state : AgentState) :
    Except String AgentState :=
  match input_node state with
  | Except.error e => Except.error e
  | Except.ok s =>
      Except.ok (output_node (generation_node generation_service
        (retrieval_node retrieval_service s)))

/-- The pipeline entry point: run the graph on the initial state for a
question and extract the final payload. -/
def answer (retrieval_service : Except String (List PineconeMatch))
    (generation_service : Except String String) (question : String) :
    Except String (Option AnswerPayload) :=
  (run_agent_graph retrieval_service generation_service
    (initialState question)).map (fun s => s.final_response)

/-- Reference definition of the calibrator, written to follow the
specification's §4.3 wording step by step: empty sequence ↦ 0.0; discard
scores below the threshold, nothing left ↦ 0.0; top 3 remaining scores sorted
descending; weights `[0.6, 0.3, 0.1]` truncated to the available count and
normalised by the sum of the weights actually used; linear rescale between
the anchors; clamp to `[0, 1]`.  Claim C1 compares it with the source's
`compute_confidence_from_scores`. -/
def calibrateSpec (scores : List ℚ) : ℚ :=
  if scores.isEmpty then 0.0
  else
    let kept := scores.filter (fun s => ¬ s < 0.20)
    if kept.isEmpty then 0.0
    else
      let top3 := (kept.insertionSort (fun a b => b ≤ a)).take 3
      let used_weights := ([0.6, 0.3, 0.1] : List ℚ).take top3.length
      let wavg := (List.zipWith (fun w s => w * s) used_weights top3).sum /
        used_weights.sum
      let rescaled := (wavg - 0.20) / (0.70 - 0.20)
      max 0.0 (min 1.0 rescaled)

/-- A concrete chunk used by the concrete evaluations below. -/
def sampleChunk (src : String) (sc : ℚ) : Chunk :=
  { text := "texto", source := src, sectionName := "seccion", score := sc,
    chunk_id := "id1" }

/-- The state right after a successful validation of the question "hola". -/
def wsValidated : AgentState :=
  { initialState "hola" with
    validated_question := some "hola", status := "input_validated" }

/-- A mid-pipeline state carrying two chunks that share a source, a generated
response and a confidence value. -/
def wsChunky : AgentState :=
  { wsValidated with
    relevant_chunks := [sampleChunk "doc_a" 0.65, sampleChunk "doc_a" 0.50],
    generated_response := some "respuesta",
    confidence := some 0.74 }

/-! ## Helper lemmas about the calibrator -/

/-- The calibrator never goes below 0, for any parameter choice: every branch
returns either the literal 0.0 or a value clamped from below by `max 0.0`. -/
theorem compute_confidence_nonneg (scores : List ℚ) (a b c : ℚ) :
    0 ≤ compute_confidence_from_scores scores a b c := by
  simp only [compute_confidence_from_scores]
  split_ifs <;> norm_num

/-- The calibrator never exceeds 1, for any parameter choice. -/
theorem compute_confidence_le_one (scores : List ℚ) (a b c : ℚ) :
    compute_confidence_from_scores scores a b c ≤ 1 := by
  simp only [compute_confidence_from_scores]
  split_ifs <;> norm_num

/-- Inserting an upper bound of a list at the head of its descending sort. -/
theorem sortD_cons_of_max (x : ℚ) (l : List ℚ) (h : ∀ a ∈ l, a ≤ x) :
    (x :: l).insertionSort (fun a b => b ≤ a) =
      x :: l.insertionSort (fun a b => b ≤ a) := by
  show List.orderedInsert _ x (l.insertionSort _) = _
  have h' : ∀ a ∈ l.insertionSort (fun a b : ℚ => b ≤ a), a ≤ x := fun a ha =>
    h a ((List.perm_insertionSort _ l).mem_iff.1 ha)
  rcases hs : l.insertionSort (fun a b : ℚ => b ≤ a) with _ | ⟨b, t⟩
  · rfl
  · exact List.orderedInsert_of_le _ t (h' b (by rw [hs]; exact List.mem_cons_self b t))

/-- Descending sorts of permuted lists agree. -/
theorem sortD_perm_congr {l₁ l₂ : List ℚ} (h : List.Perm l₁ l₂) :
    l₁.insertionSort (fun a b => b ≤ a) = l₂.insertionSort (fun a b => b ≤ a) :=
  List.eq_of_perm_of_sorted
    ((List.perm_insertionSort _ l₁).trans (h.trans (List.perm_insertionSort _ l₂).symm))
    (List.sorted_insertionSort _ l₁) (List.sorted_insertionSort _ l₂)

/-- The calibrator is invariant under permutations of the score sequence. -/
theorem calibrate_perm {l₁ l₂ : List ℚ} (h : List.Perm l₁ l₂) :
    calibrate l₁ = calibrate l₂ := by
  have hlen := h.length_eq
  by_cases h1 : l₁ = []
  · have h2 : l₂ = [] := by
      rw [← List.length_eq_zero] at h1 ⊢
      omega
    rw [h1, h2]
  · have h2 : l₂ ≠ [] := by
      intro e
      apply h1
      rw [← List.length_eq_zero] at e ⊢
      omega
    have hfil : List.Perm (l₁.filter (fun s => (0.20:ℚ) ≤ s))
        (l₂.filter (fun s => (0.20:ℚ) ≤ s)) := h.filter _
    by_cases hf1 : l₁.filter (fun s => (0.20:ℚ) ≤ s) = []
    · have hf2 : l₂.filter (fun s => (0.20:ℚ) ≤ s) = [] := by
        rw [← List.length_eq_zero] at hf1 ⊢
        rw [← hfil.length_eq]
        exact hf1
      simp only [calibrate, compute_confidence_from_scores, if_neg h1, if_neg h2,
        if_pos hf1, if_pos hf2]
    · have hf2 : l₂.filter (fun s => (0.20:ℚ) ≤ s) ≠ [] := by
        intro e
        apply hf1
        rw [← List.length_eq_zero] at e ⊢
        rw [hfil.length_eq]
        exact e
      simp only [calibrate, compute_confidence_from_scores, if_neg h1, if_neg h2,
        if_neg hf1, if_neg hf2, sortD_perm_congr hfil]

/-- When something survives the filter, the calibrator is the clamped, rescaled
weighted average. -/
theorem calibrate_of_filter_ne (scores : List ℚ) (h1 : scores ≠ [])
    (h2 : scores.filter (fun s => (0.20:ℚ) ≤ s) ≠ []) :
    calibrate scores =
      max 0.0 (min 1.0 ((weighted_avg_of scores 0.20 - 0.20) / (0.70 - 0.20))) := by
  simp only [calibrate, compute_confidence_from_scores, weighted_avg_of, top_scores_of,
    if_neg h1, if_neg h2]

/-- The rescale-then-clamp tail of the calibrator is monotone. -/
theorem clamp_rescale_mono {a b : ℚ} (h : a ≤ b) :
    max 0.0 (min 1.0 ((a - 0.20) / (0.70 - 0.20))) ≤
      max 0.0 (min 1.0 ((b - 0.20) / (0.70 - 0.20))) := by
  have hd : (0:ℚ) < 0.70 - 0.20 := by norm_num
  have hdiv : (a - 0.20) / (0.70 - 0.20) ≤ (b - 0.20) / (0.70 - 0.20) :=
    (div_le_div_iff_of_pos_right hd).2 (by linarith)
  exact max_le_max le_rfl (min_le_min le_rfl hdiv)

/-- Top scores of a sequence whose head passes the filter and bounds the rest. -/
theorem top_scores_cons_kept (x : ℚ) (rest : List ℚ) (hx : (0.20:ℚ) ≤ x)
    (hmax : ∀ a ∈ rest, a ≤ x) :
    top_scores_of (x :: rest) 0.20 =
      x :: ((rest.filter (fun s => (0.20:ℚ) ≤ s)).insertionSort
        (fun a b => b ≤ a)).take 2 := by
  unfold top_scores_of
  rw [List.filter_cons_of_pos (by simpa using hx),
    sortD_cons_of_max x _ (fun a ha => hmax a (List.mem_of_mem_filter ha)),
    List.take_succ_cons]

/-- A head below the threshold does not change the top scores. -/
theorem top_scores_cons_dropped (x : ℚ) (rest : List ℚ) (hx : ¬ (0.20:ℚ) ≤ x) :
    top_scores_of (x :: rest) 0.20 = top_scores_of rest 0.20 := by
  unfold top_scores_of
  rw [List.filter_cons_of_neg (by simpa using hx)]

/-- A head below the threshold does not change the weighted average. -/
theorem weighted_avg_cons_dropped (x : ℚ) (rest : List ℚ) (hx : ¬ (0.20:ℚ) ≤ x) :
    weighted_avg_of (x :: rest) 0.20 = weighted_avg_of rest 0.20 := by
  unfold weighted_avg_of
  rw [top_scores_cons_dropped x rest hx]

/-- Raising a maximal head that already passes the filter raises the weighted
average. -/
theorem weighted_avg_cons_both (x y : ℚ) (rest : List ℚ) (hx : (0.20:ℚ) ≤ x)
    (hxy : x ≤ y) (hmax : ∀ a ∈ rest, a ≤ x) :
    weighted_avg_of (x :: rest) 0.20 ≤ weighted_avg_of (y :: rest) 0.20 := by
  have hy : (0.20:ℚ) ≤ y := le_trans hx hxy
  have hmaxy : ∀ a ∈ rest, a ≤ y := fun a ha => le_trans (hmax a ha) hxy
  unfold weighted_avg_of
  rw [top_scores_cons_kept x rest hx hmax, top_scores_cons_kept y rest hy hmaxy]
  rcases (rest.filter (fun s => (0.20:ℚ) ≤ s)).insertionSort (fun a b => b ≤ a)
    with _ | ⟨s1, _ | ⟨s2, t⟩⟩
  · simp only [List.take_nil, List.length_cons, List.length_nil, List.take,
      List.zipWith, List.sum_cons, List.sum_nil]
    rw [div_le_div_iff_of_pos_right (by norm_num)]
    linarith
  · simp only [List.take, List.length_cons, List.length_nil, List.zipWith,
      List.sum_cons, List.sum_nil]
    rw [div_le_div_iff_of_pos_right (by norm_num)]
    linarith
  · simp only [List.take, List.length_cons, List.zipWith, List.sum_cons, List.sum_nil]
    rw [div_le_div_iff_of_pos_right (by norm_num)]
    linarith

/-- Prepending a new maximal score that passes the filter cannot lower the
weighted average of an already non-empty filtered pool: the new top-1 takes the
0.6 weight and every displaced score moves to a smaller weight. -/
theorem weighted_avg_cons_new (y : ℚ) (rest : List ℚ) (hy : (0.20:ℚ) ≤ y)
    (hmax : ∀ a ∈ rest, a ≤ y)
    (hF : rest.filter (fun s => (0.20:ℚ) ≤ s) ≠ []) :
    weighted_avg_of rest 0.20 ≤ weighted_avg_of (y :: rest) 0.20 := by
  unfold weighted_avg_of
  rw [top_scores_cons_kept y rest hy hmax]
  unfold top_scores_of
  have hsorted := List.sorted_insertionSort (fun a b : ℚ => b ≤ a)
    (rest.filter (fun s => (0.20:ℚ) ≤ s))
  have hperm := List.perm_insertionSort (fun a b : ℚ => b ≤ a)
    (rest.filter (fun s => (0.20:ℚ) ≤ s))
  have hmem : ∀ a ∈ (rest.filter (fun s => (0.20:ℚ) ≤ s)).insertionSort
      (fun a b => b ≤ a), a ≤ y := fun a ha =>
    hmax a (List.mem_of_mem_filter (hperm.mem_iff.1 ha))
  rcases hs : (rest.filter (fun s => (0.20:ℚ) ≤ s)).insertionSort (fun a b => b ≤ a)
    with _ | ⟨s1, _ | ⟨s2, _ | ⟨s3, t⟩⟩⟩
  · rw [hs] at hperm
    exact absurd hperm.symm.eq_nil hF
  · have h1 : s1 ≤ y := hmem s1 (by rw [hs]; exact List.mem_cons_self _ _)
    simp only [List.take, List.length_cons, List.length_nil, List.zipWith,
      List.sum_cons, List.sum_nil]
    rw [div_le_div_iff₀ (by norm_num) (by norm_num)]
    linarith
  · have h1 : s1 ≤ y := hmem s1 (by rw [hs]; exact List.mem_cons_self _ _)
    have hs12 : s2 ≤ s1 := by
      rw [hs] at hsorted
      exact (List.sorted_cons.1 hsorted).1 s2 (List.mem_cons_self _ _)
    simp only [List.take, List.length_cons, List.length_nil, List.zipWith,
      List.sum_cons, List.sum_nil]
    rw [div_le_div_iff₀ (by norm_num) (by norm_num)]
    linarith
  · have h1 : s1 ≤ y := hmem s1 (by rw [hs]; exact List.mem_cons_self _ _)
    have hs12 : s2 ≤ s1 := by
      rw [hs] at hsorted
      exact (List.sorted_cons.1 hsorted).1 s2 (List.mem_cons_self _ _)
    have hs23 : s3 ≤ s2 := by
      rw [hs] at hsorted
      exact (List.sorted_cons.1 (List.sorted_cons.1 hsorted).2).1 s3
        (List.mem_cons_self _ _)
    simp only [List.take, List.length_cons, List.zipWith, List.sum_cons, List.sum_nil]
    rw [div_le_div_iff₀ (by norm_num) (by norm_num)]
    linarith

/-- Calibrating with a below-threshold head: the head is filtered out. -/
theorem calibrate_cons_dropped (x : ℚ) (rest : List ℚ) (hx : ¬ (0.20:ℚ) ≤ x) :
    calibrate (x :: rest) =
      if rest.filter (fun s => (0.20:ℚ) ≤ s) = [] then 0.0
      else max 0.0 (min 1.0 ((weighted_avg_of rest 0.20 - 0.20) / (0.70 - 0.20))) := by
  have hfilter : List.filter (fun s => decide ((0.20:ℚ) ≤ s)) (x :: rest) =
      List.filter (fun s => decide ((0.20:ℚ) ≤ s)) rest :=
    List.filter_cons_of_neg (by simpa using hx)
  simp only [calibrate, compute_confidence_from_scores, weighted_avg_of, top_scores_of,
    if_neg (List.cons_ne_nil x rest), hfilter]

/-- Core monotonicity step: raising a maximal head never lowers the calibrated
confidence. -/
theorem calibrate_cons_mono (rest : List ℚ) (x y : ℚ)
    (hmax : ∀ a ∈ rest, a ≤ x) (hxy : x ≤ y) :
    calibrate (x :: rest) ≤ calibrate (y :: rest) := by
  by_cases hx : (0.20:ℚ) ≤ x
  · have hy : (0.20:ℚ) ≤ y := le_trans hx hxy
    have hfx : (x :: rest).filter (fun s => (0.20:ℚ) ≤ s) ≠ [] := by
      rw [List.filter_cons_of_pos (by simpa using hx)]
      exact List.cons_ne_nil _ _
    have hfy : (y :: rest).filter (fun s => (0.20:ℚ) ≤ s) ≠ [] := by
      rw [List.filter_cons_of_pos (by simpa using hy)]
      exact List.cons_ne_nil _ _
    rw [calibrate_of_filter_ne _ (List.cons_ne_nil x rest) hfx,
      calibrate_of_filter_ne _ (List.cons_ne_nil y rest) hfy]
    exact clamp_rescale_mono (weighted_avg_cons_both x y rest hx hxy hmax)
  · by_cases hy : (0.20:ℚ) ≤ y
    · have hmaxy : ∀ a ∈ rest, a ≤ y := fun a ha => le_trans (hmax a ha) hxy
      by_cases hF : rest.filter (fun s => (0.20:ℚ) ≤ s) = []
      · rw [calibrate_cons_dropped x rest hx, if_pos hF]
        calc (0.0:ℚ) = 0 := by norm_num
          _ ≤ calibrate (y :: rest) := compute_confidence_nonneg _ _ _ _
      · have hfy : (y :: rest).filter (fun s => (0.20:ℚ) ≤ s) ≠ [] := by
          rw [List.filter_cons_of_pos (by simpa using hy)]
          exact List.cons_ne_nil _ _
        rw [calibrate_cons_dropped x rest hx, if_neg hF,
          calibrate_of_filter_ne _ (List.cons_ne_nil y rest) hfy]
        exact clamp_rescale_mono (weighted_avg_cons_new y rest hy hmaxy hF)
    · rw [calibrate_cons_dropped x rest hx, calibrate_cons_dropped y rest hy]

/-! ## The claims -/

/-- Claim C1: the confidence calibrator at parameters
`score_threshold = 0.20`, `expected_min = 0.20`, `expected_max = 0.70` agrees
with the specification's reference definition `calibrateSpec` on every score
sequence, and its result always lies in `[0, 1]`. -/
theorem calibrator_matches_reference (scores : List ℚ) :
    compute_confidence_from_scores scores 0.20 0.70 0.20 = calibrateSpec scores ∧
    0 ≤ compute_confidence_from_scores scores 0.20 0.70 0.20 ∧
    compute_confidence_from_scores scores 0.20 0.70 0.20 ≤ 1 := by
  refine ⟨?_, compute_confidence_nonneg scores 0.20 0.70 0.20,
    compute_confidence_le_one scores 0.20 0.70 0.20⟩
  have hf : scores.filter (fun s => decide ((0.20:ℚ) ≤ s)) =
      scores.filter (fun s => decide (¬ s < (0.20:ℚ))) := by
    apply List.filter_congr
    intro a _
    simp [not_lt]
  simp only [compute_confidence_from_scores, calibrateSpec, List.isEmpty_iff, hf]

/-- Claim C2: an exception in the retrieval stage is absorbed — the chunks
degrade to `[]`, the message is recorded in `error`, the status becomes
`"retrieval_failed"` and the pipeline continues; consequently `answer` on any
valid question still returns a payload with confidence 0.0 whose answer is the
fixed no-information template (which acknowledges the absence of
information). -/
theorem retrieval_failure_degrades (e : String) (gen : Except String String)
    (q : String) (h : 3 ≤ (pyStrip q).length) :
    (∀ state : AgentState, retrieval_node (Except.error e) state = { state with
        relevant_chunks := [], status := "retrieval_failed", error := some e }) ∧
    answer (Except.error e) gen q =
      Except.ok (some (AnswerPayload.mk (noInfoResponse (pyStrip q)) [] 0.0)) := by
  have hq : ¬(q = "" ∨ (pyStrip q).length < 3) := by
    rintro (rfl | hlt)
    · simp [pyStrip] at h
    · omega
  refine ⟨fun state => by simp [retrieval_node], ?_⟩
  simp [answer, run_agent_graph, input_node, hq, retrieval_node, generation_node,
    output_node, initialState, Except.map]

theorem retrieval_failure_degrades_witness :
    3 ≤ (pyStrip "hola").length ∧
    answer (Except.error "boom") (Except.ok "resp") "hola" =
      Except.ok (some (AnswerPayload.mk (noInfoResponse (pyStrip "hola")) [] 0.0)) :=
  ⟨by decide,
    (retrieval_failure_degrades "boom" (Except.ok "resp") "hola" (by decide)).2⟩

/-- Claim C3: the input stage fails exactly on questions whose stripped form
is empty or shorter than 3 characters; on success it records the stripped
question, advances the status to `"input_validated"`, and changes nothing
else. -/
theorem input_node_validation (state : AgentState) :
    ((pyStrip state.question = "" ∨ (pyStrip state.question).length < 3) →
      input_node state = Except.error "Question must be at least 3 characters long") ∧
    (3 ≤ (pyStrip state.question).length →
      input_node state = Except.ok { state with
        validated_question := some (pyStrip state.question),
        status := "input_validated" }) := by
  constructor
  · intro h
    have hlen : (pyStrip state.question).length < 3 := by
      rcases h with h | h
      · simp [h]
      · exact h
    unfold input_node
    rw [if_pos (Or.inr hlen)]
  · intro h
    unfold input_node
    rw [if_neg]
    rintro (h1 | h2)
    · rw [h1] at h
      simp [pyStrip] at h
    · omega

theorem input_node_validation_witness :
    ((pyStrip (initialState "ab").question = "" ∨
        (pyStrip (initialState "ab").question).length < 3) ∧
      input_node (initialState "ab") =
        Except.error "Question must be at least 3 characters long") ∧
    (3 ≤ (pyStrip (initialState "hola").question).length ∧
      input_node (initialState "hola") = Except.ok { initialState "hola" with
        validated_question := some (pyStrip (initialState "hola").question),
        status := "input_validated" }) :=
  ⟨⟨by decide, (input_node_validation (initialState "ab")).1 (by decide)⟩,
    ⟨by decide, (input_node_validation (initialState "hola")).2 (by decide)⟩⟩

/-- Claim C4: the pipeline's status moves through the strict linear order
started → input_validated → (retrieval_completed | retrieval_failed) →
(generation_completed | generation_failed) → completed; whenever the input
stage does not abort, the run terminates with status `"completed"`, and only
the input stage can abort the whole request. -/
theorem pipeline_status_linear (retr : Except String (List PineconeMatch))
    (gen : Except String String) (state : AgentState) :
    (∀ q, (initialState q).status = "started") ∧
    (∀ s1, input_node state = Except.ok s1 →
      s1.status = "input_validated" ∧
      ((retrieval_node retr s1).status = "retrieval_completed" ∨
        (retrieval_node retr s1).status = "retrieval_failed") ∧
      ((generation_node gen (retrieval_node retr s1)).status = "generation_completed" ∨
        (generation_node gen (retrieval_node retr s1)).status = "generation_failed") ∧
      (output_node (generation_node gen (retrieval_node retr s1))).status = "completed" ∧
      run_agent_graph retr gen state =
        Except.ok (output_node (generation_node gen (retrieval_node retr s1)))) ∧
    (∀ e, run_agent_graph retr gen state = Except.error e →
      input_node state = Except.error e) := by
  refine ⟨fun q => rfl, fun s1 h1 => ?_, fun e he => ?_⟩
  · refine ⟨?_, ?_, ?_, by simp [output_node], ?_⟩
    · simp only [input_node] at h1
      split_ifs at h1
      injection h1 with h1
      rw [← h1]
    · cases retr <;> simp [retrieval_node]
    · rcases gen with ge | gc <;>
        by_cases hc : (retrieval_node retr s1).relevant_chunks = [] <;>
        simp [generation_node, hc]
    · unfold run_agent_graph
      rw [h1]
  · unfold run_agent_graph at he
    cases hin : input_node state <;> rw [hin] at he
    · injection he with he
      rw [he]
    · cases he

theorem pipeline_status_linear_witness :
    wsValidated.status = "input_validated" ∧
    ((retrieval_node (Except.ok []) wsValidated).status = "retrieval_completed" ∨
      (retrieval_node (Except.ok []) wsValidated).status = "retrieval_failed") ∧
    ((generation_node (Except.ok "resp")
        (retrieval_node (Except.ok []) wsValidated)).status = "generation_completed" ∨
      (generation_node (Except.ok "resp")
        (retrieval_node (Except.ok []) wsValidated)).status = "generation_failed") ∧
    (output_node (generation_node (Except.ok "resp")
      (retrieval_node (Except.ok []) wsValidated))).status = "completed" ∧
    run_agent_graph (Except.ok []) (Except.ok "resp") (initialState "hola") =
      Except.ok (output_node (generation_node (Except.ok "resp")
        (retrieval_node (Except.ok []) wsValidated))) :=
  (pipeline_status_linear (Except.ok []) (Except.ok "resp")
    (initialState "hola")).2.1 wsValidated rfl

/-- Claim C5: with no relevant chunks, the generation stage ignores the
completion service entirely and returns the fixed no-information template
(which embeds the question) with confidence 0.0. -/
theorem generation_empty_short_circuit (service : Except String String)
    (state : AgentState) (h : state.relevant_chunks = []) :
    generation_node service state = { state with
      generated_response := some (noInfoResponse (state.validated_question.getD "")),
      status := "generation_completed",
      confidence := some 0.0 } ∧
    (∀ other : Except String String,
      generation_node service state = generation_node other state) ∧
    (∃ before after, noInfoResponse (state.validated_question.getD "") =
      before ++ (state.validated_question.getD "") ++ after) := by
  refine ⟨by simp [generation_node, h], fun other => by simp [generation_node, h], ?_⟩
  exact ⟨"No encontré información específica sobre '",
    "' en mi base de conocimiento.", rfl⟩

theorem generation_empty_short_circuit_witness :
    wsValidated.relevant_chunks = [] ∧
    generation_node (Except.ok "resp") wsValidated = { wsValidated with
      generated_response := some (noInfoResponse (wsValidated.validated_question.getD "")),
      status := "generation_completed",
      confidence := some 0.0 } :=
  ⟨rfl, (generation_empty_short_circuit (Except.ok "resp") wsValidated rfl).1⟩

/-- Claim C6: an exception during the generation stage's synthesis path is
caught, never propagated: the stage returns the fixed fallback apology,
confidence 0.0 and status `"generation_failed"` (recording the error). -/
theorem generation_exception_fallback (e : String) (state : AgentState)
    (h : state.relevant_chunks ≠ []) :
    generation_node (Except.error e) state = { state with
      generated_response := some (fallbackResponse (state.validated_question.getD "")),
      confidence := some 0.0,
      status := "generation_failed",
      error := some e } := by
  simp [generation_node, h]

theorem generation_exception_fallback_witness :
    wsChunky.relevant_chunks ≠ [] ∧
    generation_node (Except.error "rate limit") wsChunky = { wsChunky with
      generated_response := some (fallbackResponse (wsChunky.validated_question.getD "")),
      confidence := some 0.0,
      status := "generation_failed",
      error := some "rate limit" } :=
  ⟨List.cons_ne_nil _ _,
    generation_exception_fallback "rate limit" wsChunky (List.cons_ne_nil _ _)⟩

/-- Claim C7: the output stage always succeeds, assembling the payload from
the generated response, the state's confidence and the chunk sources with
duplicates removed — each distinct source appears exactly once. -/
theorem output_node_formats (state : AgentState) (r : String) (c : ℚ)
    (hr : state.generated_response = some r) (hc : state.confidence = some c) :
    output_node state = { state with
      final_response := some (AnswerPayload.mk r
        ((state.relevant_chunks.map (fun ch => ch.source)).dedup) c),
      status := "completed" } ∧
    (state.relevant_chunks.map (fun ch => ch.source)).dedup.Nodup ∧
    (∀ s, s ∈ (state.relevant_chunks.map (fun ch => ch.source)).dedup ↔
      s ∈ state.relevant_chunks.map (fun ch => ch.source)) :=
  ⟨by simp [output_node, hr, hc], List.nodup_dedup _, fun s => List.mem_dedup⟩

theorem output_node_formats_witness :
    wsChunky.generated_response = some "respuesta" ∧
    wsChunky.confidence = some 0.74 ∧
    output_node wsChunky = { wsChunky with
      final_response := some (AnswerPayload.mk "respuesta"
        ((wsChunky.relevant_chunks.map (fun ch => ch.source)).dedup) 0.74),
      status := "completed" } :=
  ⟨rfl, rfl, (output_node_formats wsChunky "respuesta" 0.74 rfl rfl).1⟩

/-- Claim C8: the calibrator is monotonically non-decreasing in its top score:
replacing a maximal element of the score sequence by a larger value, holding
all other elements fixed, never decreases the calibrated confidence. -/
theorem calibrate_mono_in_max (pre post : List ℚ) (x y : ℚ)
    (hmax : ∀ a ∈ pre ++ x :: post, a ≤ x) (hxy : x ≤ y) :
    calibrate (pre ++ x :: post) ≤ calibrate (pre ++ y :: post) := by
  have hperm1 : List.Perm (pre ++ x :: post) (x :: (pre ++ post)) := List.perm_middle
  have hperm2 : List.Perm (pre ++ y :: post) (y :: (pre ++ post)) := List.perm_middle
  rw [calibrate_perm hperm1, calibrate_perm hperm2]
  exact calibrate_cons_mono (pre ++ post) x y
    (fun a ha => hmax a (hperm1.symm.mem_iff.1 (List.mem_cons_of_mem _ ha))) hxy

theorem calibrate_mono_in_max_witness :
    (∀ a ∈ [(0.5:ℚ)] ++ (0.65:ℚ) :: [(0.3:ℚ)], a ≤ 0.65) ∧ (0.65:ℚ) ≤ 0.9 ∧
    calibrate ([(0.5:ℚ)] ++ (0.65:ℚ) :: [(0.3:ℚ)]) ≤
      calibrate ([(0.5:ℚ)] ++ (0.9:ℚ) :: [(0.3:ℚ)]) :=
  ⟨by
    intro a ha
    fin_cases ha <;> norm_num,
   by norm_num,
   calibrate_mono_in_max [0.5] [0.3] 0.65 0.9
     (by
       intro a ha
       fin_cases ha <;> norm_num)
     (by norm_num)⟩

/-- Claim C9: on the scores `[0.65, 0.50, 0.30]` with anchors 0.20 and 0.70
the calibrator's weighted average is `0.6*0.65 + 0.3*0.50 + 0.1*0.30 = 0.57`
and the calibrated confidence is `(0.57 - 0.20) / (0.70 - 0.20) = 0.74`. -/
theorem calibration_concrete_values :
    weighted_avg_of [0.65, 0.50, 0.30] 0.20 = 0.57 ∧
    compute_confidence_from_scores [0.65, 0.50, 0.30] 0.20 0.70 0.20 = 0.74 := by
  constructor
  · norm_num [weighted_avg_of, top_scores_of]
  · norm_num [compute_confidence_from_scores]
    simp

/-- Claim C10: frame property of the four stage nodes — each returns its input
state with only the fields it writes replaced: the input stage only writes
`validated_question` and `status`; retrieval only `relevant_chunks`, `status`
and `error`; generation only `generated_response`, `confidence`, `status` and
`error`; output only `final_response` and `status`.  In particular `question`
is never modified, `validated_question` is unchanged by retrieval, generation
and output, and `relevant_chunks` is unchanged by generation and output. -/
theorem node_frame_conditions :
    (∀ (state s1 : AgentState), input_node state = Except.ok s1 →
      s1.question = state.question ∧ s1.relevant_chunks = state.relevant_chunks ∧
      s1.generated_response = state.generated_response ∧
      s1.confidence = state.confidence ∧
      s1.final_response = state.final_response ∧ s1.error = state.error) ∧
    (∀ (service : Except String (List PineconeMatch)) (state : AgentState),
      (retrieval_node service state).question = state.question ∧
      (retrieval_node service state).validated_question = state.validated_question ∧
      (retrieval_node service state).generated_response = state.generated_response ∧
      (retrieval_node service state).confidence = state.confidence ∧
      (retrieval_node service state).final_response = state.final_response) ∧
    (∀ (service : Except String String) (state : AgentState),
      (generation_node service state).question = state.question ∧
      (generation_node service state).validated_question = state.validated_question ∧
      (generation_node service state).relevant_chunks = state.relevant_chunks ∧
      (generation_node service state).final_response = state.final_response) ∧
    (∀ state : AgentState,
      (output_node state).question = state.question ∧
      (output_node state).validated_question = state.validated_question ∧
      (output_node state).relevant_chunks = state.relevant_chunks ∧
      (output_node state).generated_response = state.generated_response ∧
      (output_node state).confidence = state.confidence ∧
      (output_node state).error = state.error) := by
  refine ⟨fun state s1 h1 => ?_, fun service state => ?_, fun service state => ?_,
    fun state => ?_⟩
  · simp only [input_node] at h1
    split_ifs at h1
    injection h1 with h1
    rw [← h1]
    exact ⟨rfl, rfl, rfl, rfl, rfl, rfl⟩
  · cases service <;> simp [retrieval_node]
  · rcases service with ge | gc <;>
      by_cases hc : state.relevant_chunks = [] <;>
      simp [generation_node, hc]
  · simp [output_node]

theorem node_frame_conditions_witness :
    wsValidated.question = (initialState "hola").question ∧
    wsValidated.relevant_chunks = (initialState "hola").relevant_chunks ∧
    wsValidated.generated_response = (initialState "hola").generated_response ∧
    wsValidated.confidence = (initialState "hola").confidence ∧
    wsValidated.final_response = (initialState "hola").final_response ∧
    wsValidated.error = (initialState "hola").error :=
  node_frame_conditions.1 (initialState "hola") wsValidated rfl

end AgentGraph
